import Mathlib

/-!
Verification development for the PUTrace campus lost-and-found server
(`src/server.js`, schema in `src/db/schema.sql`).

The embedding models the database as explicit lists of rows (one list per
table), and each Express route handler as a pure function from the database
state and the request inputs to an `Outcome` (what the handler sends back)
paired with the new database state.  Values produced by external
collaborators — the generated random bytes, the QR data URL, the object
storage upload result, and database-generated row ids — are passed to the
handlers as explicit parameters, exactly as the handlers receive them from
those collaborators in the source.

`src/server.js` contains two versions of the server separated by a document
separator; the second (current) version defines all routes the claims cite,
and the first (legacy) version contributes `cryptoRandomToken` and the
legacy `POST /dashboard` handler, both also modelled below.
-/

namespace PUTrace

/-- A row of the `items` table (`db/schema.sql`): owner, name, optional
description, category (default `Other`), status (default `active`),
optional image URL, the unique recovery token and the QR data URL. -/
structure Item where
  id : Nat
  user_id : Nat
  item_name : String
  item_description : Option String
  category : String
  item_status : String
  image_url : Option String
  token : String
  qr_data_url : String
  deriving DecidableEq

/-- A row of the `finder_reports` table: report against an item, created with
status `open`. -/
structure FinderReport where
  id : Nat
  item_id : Nat
  finder_name : String
  finder_email : String
  location_hint : Option String
  message : String
  status : String
  deriving DecidableEq

/-- A row of the `found_posts` table: a board post by an anonymous finder,
created with status `unclaimed`. -/
structure FoundPost where
  id : Nat
  finder_name : String
  finder_email : String
  item_name : String
  item_description : Option String
  category : String
  location_found : Option String
  image_url : Option String
  status : String
  deriving DecidableEq

/-- The database state: the three tables the modelled handlers touch. -/
structure DB where
  items : List Item
  finder_reports : List FinderReport
  found_posts : List FoundPost
  deriving DecidableEq

/-- What a handler sends back: a 404 page (`res.status(404).render("not_found")`),
a 403 (`res.status(403).send("Forbidden")`), a redirect carrying an error
flash message, a redirect carrying a success flash message, or a rendered
page. -/
inductive Outcome where
  | notFound
  | forbidden
  | errorFlash (msg : String)
  | success (msg : String)
  | render (view : String)
  deriving DecidableEq

/-- True exactly on the success outcome. -/
def Outcome.isSuccess : Outcome → Bool
  | .success _ => true
  | _ => false

/-- Model of `sanitize` (server.js line 292): `(str || "").trim()` — remove leading
and trailing whitespace. -/
def sanitize (s : String) : String :=
  ⟨((s.toList.dropWhile Char.isWhitespace).reverse.dropWhile Char.isWhitespace).reverse⟩

/-- A character allowed by the class `[^\s@]` of the email regular
expression: neither whitespace nor `@`. -/
def okEmailChar (c : Char) : Bool := !c.isWhitespace && !(c == '@')

/-- Model of `isValidEmail` (server.js line 297): test of the anchored regular
expression `^[^\s@]+@[^\s@]+\.[^\s@]+$`.  A string matches iff it contains
exactly one `@`, the part before it is a nonempty run of non-whitespace
non-`@` characters, and the part after it is such a run containing a `.`
that is neither its first nor its last character (the existential
decomposition `[^\s@]+ "." [^\s@]+`). -/
def isValidEmail (s : String) : Bool :=
  let l := s.toList
  (l.count '@' == 1) &&
  (let a := l.takeWhile (fun c => !(c == '@'))
   let b := (l.dropWhile (fun c => !(c == '@'))).drop 1
   !a.isEmpty && a.all okEmailChar && b.all okEmailChar &&
   ((b.drop 1).dropLast.contains '.'))

/-- Model of `CATEGORIES` (server.js line 287): the nine fixed item categories. -/
def CATEGORIES : List String :=
  ["Electronics", "ID / Cards", "Clothing", "Bags", "Bottles", "Books", "Accessories", "Keys", "Other"]

/-- The lowercase hexadecimal digit of `n` (for `n < 16`). -/
def hexDigit (n : Nat) : Char := "0123456789abcdef".toList.getD n '0'

/-- The two hexadecimal characters of one byte, high nibble first, as
produced by Node's `Buffer.toString("hex")`. -/
def byteToHex (b : Fin 256) : List Char := [hexDigit (b.val / 16), hexDigit (b.val % 16)]

/-- Hexadecimal rendering of a byte string. -/
def bytesToHex (bytes : List (Fin 256)) : List Char := bytes.flatMap byteToHex

/-- Model of `generateToken` (server.js line 302): `crypto.randomBytes(16).toString("hex")`.
The 16 random bytes drawn from the CSPRNG are the explicit argument; the
handler calls this with the 16 bytes `crypto.randomBytes` returned. -/
def generateToken (bytes : List (Fin 256)) : String := ⟨bytesToHex bytes⟩

/-- Inverse of `hexDigit` (index in the hex alphabet). -/
def unhexDigit (c : Char) : Nat := "0123456789abcdef".toList.indexOf c

/-- The byte value encoded by two hexadecimal characters. -/
def hexPairToByte (c1 c2 : Char) : Nat := unhexDigit c1 * 16 + unhexDigit c2

/-- Decoder of `bytesToHex`, consuming the character list two at a time. -/
def hexToBytes : List Char → Option (List (Fin 256))
  | [] => some []
  | c1 :: c2 :: rest =>
    (hexToBytes rest).map (fun l => ⟨hexPairToByte c1 c2 % 256, Nat.mod_lt _ (by norm_num)⟩ :: l)
  | [_] => none

/-- The base-36 digit of `n` (for `n < 36`), as used by JavaScript's
`Number.prototype.toString(36)`. -/
def base36Digit (n : Nat) : Char := "0123456789abcdefghijklmnopqrstuvwxyz".toList.getD n '0'

/-- Digits of a natural number in base 36, most significant first
(fuel-bounded; 64 digits cover every timestamp). -/
def toB36Aux : Nat → Nat → List Char
  | 0, _ => []
  | _ + 1, 0 => []
  | fuel + 1, n => toB36Aux fuel (n / 36) ++ [base36Digit (n % 36)]

/-- Model of `Date.now().toString(36)`: the base-36 rendering of the millisecond
timestamp. -/
def natToBase36 (n : Nat) : String := if n = 0 then "0" else ⟨toB36Aux 64 n⟩

/-- Base-36 digits of the binary fraction `r / 2 ^ 53`, trailing zero digits
dropped (fuel-bounded), modelling how `Math.random().toString(36)` prints
the fractional part of the random double after the leading `0.` that
`slice(2)` removes. -/
def fracB36Aux : Nat → Nat → List Char
  | 0, _ => []
  | _ + 1, 0 => []
  | fuel + 1, r => base36Digit (r * 36 / 2 ^ 53) :: fracB36Aux fuel (r * 36 % 2 ^ 53)

/-- Model of `Math.random().toString(36).slice(2)`: the base-36 digits of the random
double's fractional part.  `Math.random` yields a double of the form
`r / 2 ^ 53` with `r < 2 ^ 53`, so `r` is the explicit randomness input. -/
def fracToBase36 (r : Fin (2 ^ 53)) : String := ⟨fracB36Aux 64 r.val⟩

/-- Model of `cryptoRandomToken` (legacy server.js, line 249):
`Math.random().toString(36).slice(2) + Date.now().toString(36)` —
the base-36 digits of one random double followed by the base-36 rendering
of the current clock reading `t`. -/
def cryptoRandomToken (r : Fin (2 ^ 53)) (t : Nat) : String :=
  fracToBase36 r ++ natToBase36 t

/-- Result of the object-storage upload inside `uploadImage` (server.js
line 312): either the public URL issued for the stored file, or a storage
error. -/
inductive UploadResult where
  | ok (url : String)
  | storageError
  deriving DecidableEq

/-- Model of `uploadImage` (server.js lines 312–327): on a storage upload error the
function returns `null` (`if (error) return null`), otherwise the public
URL.  (A thrown exception from the image transcoder would abort the whole
request via the handler's catch-all and is outside this model.) -/
def uploadImage : UploadResult → Option String
  | .ok url => some url
  | .storageError => none

/-- Public token lookup (`supabase.from("items").select(...).eq("token", t)`,
used by `GET /found/:token` and `POST /found/:token`): the item whose
`token` column equals the full requested token. -/
def resolveToken (items : List Item) (tok : String) : Option Item :=
  items.find? (fun i => i.token == tok)

/-- Handler `GET /found/:token` (server.js lines 669–680): 404 page when the token
resolves to no item, otherwise the rendered QR landing page. -/
def resolveTokenGet (db : DB) (tok : String) : Outcome :=
  match resolveToken db.items tok with
  | none => .notFound
  | some _ => .render "found_qr"

/-- Handler `POST /found/:token` (server.js lines 683–719): resolve the token
(404 when unbound), trim the inputs, validate name (≥ 2 chars), email
(`isValidEmail`) and message (≥ 3 chars), then insert the finder report
with status `open` against the resolved item. -/
def submitFinderReport (db : DB) (tok finder_name_raw finder_email_raw location_hint_raw message_raw : String) (newId : Nat) : Outcome × DB :=
  let finder_name := sanitize finder_name_raw
  let finder_email := sanitize finder_email_raw
  let location_hint := sanitize location_hint_raw
  let message := sanitize message_raw
  match resolveToken db.items tok with
  | none => (.notFound, db)
  | some item =>
    if finder_name.length < 2 then (.errorFlash "Name is too short.", db)
    else if isValidEmail finder_email = false then (.errorFlash "Invalid email.", db)
    else if message.length < 3 then (.errorFlash "Message is too short.", db)
    else
      (.success "Report submitted to owner!",
       { db with finder_reports := db.finder_reports ++
           [{ id := newId, item_id := item.id, finder_name := finder_name,
              finder_email := finder_email,
              location_hint := if location_hint = "" then none else some location_hint,
              message := message, status := "open" }] })

/-- Handler `POST /lost/:id/sighting` (server.js lines 625–665): look up the item by
id restricted to status `lost` (error flash when absent), validate the
reporter's name, email and message with the same rules as the finder
report, then insert a finder report whose message carries the
`[Sighting] ` prefix, with status `open`. -/
def submitSighting (db : DB) (itemId : Nat) (reporter_name_raw reporter_email_raw location_raw message_raw : String) (newId : Nat) : Outcome × DB :=
  let reporter_name := sanitize reporter_name_raw
  let reporter_email := sanitize reporter_email_raw
  let location := sanitize location_raw
  let message := sanitize message_raw
  match db.items.find? (fun i => i.id == itemId && i.item_status == "lost") with
  | none => (.errorFlash "Item not found.", db)
  | some item =>
    if reporter_name.length < 2 then (.errorFlash "Name is too short.", db)
    else if isValidEmail reporter_email = false then (.errorFlash "Invalid email.", db)
    else if message.length < 3 then (.errorFlash "Message is too short.", db)
    else
      (.success ("Sighting reported for \"" ++ item.item_name ++ "\". The owner has been notified!"),
       { db with finder_reports := db.finder_reports ++
           [{ id := newId, item_id := item.id, finder_name := reporter_name,
              finder_email := reporter_email,
              location_hint := if location = "" then none else some location,
              message := "[Sighting] " ++ message, status := "open" }] })

/-- Handler `POST /dashboard` (server.js lines 529–573, current version): trim name
and description, default the category, reject a missing or over-150
character name, then build the token from the random bytes, take the
upload outcome (absent file → no URL, storage error → no URL), and insert
the item with status `active` and the coerced category. -/
def registerItem (db : DB) (userId : Nat) (item_name_raw item_description_raw category_raw : String) (file : Option UploadResult) (tokenBytes : List (Fin 256)) (qr : String) (newId : Nat) : Outcome × DB :=
  let item_name := sanitize item_name_raw
  let item_description := sanitize item_description_raw
  let category := if category_raw = "" then "Other" else category_raw
  if item_name = "" ∨ item_name.length > 150 then
    (.errorFlash "Item name is required (max 150 characters).", db)
  else
    let token := generateToken tokenBytes
    let image_url := match file with
      | none => none
      | some r => uploadImage r
    (.success "Item registered and QR generated.",
     { db with items := db.items ++
         [{ id := newId, user_id := userId, item_name := item_name,
            item_description := if item_description = "" then none else some item_description,
            category := if CATEGORIES.contains category then category else "Other",
            item_status := "active", image_url := image_url,
            token := token, qr_data_url := qr }] })

/-- Handler `POST /dashboard` of the legacy version (server.js lines 152–179):
reject an empty name, otherwise insert the item with
`token = cryptoRandomToken()`; the row's category, status and image take
the schema defaults `Other` / `active` / null. -/
def registerItemLegacy (db : DB) (userId : Nat) (item_name item_description : String) (r : Fin (2 ^ 53)) (tNow : Nat) (qr : String) (newId : Nat) : Outcome × DB :=
  if item_name = "" then (.errorFlash "Item name is required.", db)
  else
    (.success "Item registered and QR generated.",
     { db with items := db.items ++
         [{ id := newId, user_id := userId, item_name := item_name,
            item_description := if item_description = "" then none else some item_description,
            category := "Other", item_status := "active", image_url := none,
            token := cryptoRandomToken r tNow, qr_data_url := qr }] })

/-- Handler `POST /found-items` (server.js lines 758–796): trim the inputs, default
the category, validate the finder's name (≥ 2 chars), email and item name
(nonempty, ≤ 150 chars), then insert the post with status `unclaimed` and
the coerced category. -/
def postFoundItem (db : DB) (finder_name_raw finder_email_raw item_name_raw item_description_raw category_raw location_found_raw : String) (file : Option UploadResult) (newId : Nat) : Outcome × DB :=
  let finder_name := sanitize finder_name_raw
  let finder_email := sanitize finder_email_raw
  let item_name := sanitize item_name_raw
  let item_description := sanitize item_description_raw
  let category := if category_raw = "" then "Other" else category_raw
  let location_found := sanitize location_found_raw
  if finder_name.length < 2 then (.errorFlash "Name is too short.", db)
  else if isValidEmail finder_email = false then (.errorFlash "Invalid email.", db)
  else if item_name = "" ∨ item_name.length > 150 then
    (.errorFlash "Item name is required (max 150 chars).", db)
  else
    let image_url := match file with
      | none => none
      | some r => uploadImage r
    (.success "Found item posted! The owner can now find it here.",
     { db with found_posts := db.found_posts ++
         [{ id := newId, finder_name := finder_name, finder_email := finder_email,
            item_name := item_name,
            item_description := if item_description = "" then none else some item_description,
            category := if CATEGORIES.contains category then category else "Other",
            location_found := if location_found = "" then none else some location_found,
            image_url := image_url, status := "unclaimed" }] })

/-- The read step of `POST /found-items/:id/claim` (server.js lines 801–806):
the select filtered by the post id and status `unclaimed`. -/
def claimRead (db : DB) (postId : Nat) : Option FoundPost :=
  db.found_posts.find? (fun p => p.id == postId && p.status == "unclaimed")

/-- The write step of `POST /found-items/:id/claim` (server.js line 813):
`update({ status: "claimed" }).eq("id", post.id)` — unconditional on the
current status. -/
def claimWrite (db : DB) (postId : Nat) : DB :=
  { db with found_posts := db.found_posts.map fun p =>
      if p.id == postId then { p with status := "claimed" } else p }

/-- The success flash of the claim handler. -/
def claimMsg (post : FoundPost) : String :=
  "You claimed \"" ++ post.item_name ++ "\". Contact the finder at " ++
    post.finder_email ++ " to arrange pickup."

/-- Handler `POST /found-items/:id/claim` (server.js lines 799–821): read the post
filtered to `unclaimed` (error flash when missing or already claimed),
then set its status to `claimed`.  The authenticated caller `uid` is not
related to the post in any way. -/
def claimFoundPost (db : DB) (postId : Nat) (_uid : Nat) : Outcome × DB :=
  match claimRead db postId with
  | none => (.errorFlash "Post not found or already claimed.", db)
  | some post => (.success (claimMsg post), claimWrite db post.id)

/-- Two `POST /found-items/:id/claim` requests on the same post id under the
interleaving where both selects execute before either update (each handler
performs its read and its write as two separate store operations with no
transaction around them): the outcomes of the two callers and the final
state. -/
def claimTwoInterleaved (db : DB) (postId : Nat) : Outcome × Outcome × DB :=
  let rA := claimRead db postId
  let rB := claimRead db postId
  match rA, rB with
  | none, none => (.errorFlash "Post not found or already claimed.",
                   .errorFlash "Post not found or already claimed.", db)
  | none, some pB => (.errorFlash "Post not found or already claimed.",
                      .success (claimMsg pB), claimWrite db pB.id)
  | some pA, none => (.success (claimMsg pA),
                      .errorFlash "Post not found or already claimed.", claimWrite db pA.id)
  | some pA, some pB => (.success (claimMsg pA), .success (claimMsg pB),
                         claimWrite (claimWrite db pA.id) pB.id)

/-- Handler `POST /report/:id/resolve` (server.js lines 825–842): load the report by
id (404 when absent), load the parent item, send 403 unless the caller
owns it (`if (!item || item.user_id !== req.session.userId)`), then set
the report's status to `resolved`.  The handler never inspects the
report's current status. -/
def resolveReport (db : DB) (reportId : Nat) (uid : Nat) : Outcome × DB :=
  match db.finder_reports.find? (fun r => r.id == reportId) with
  | none => (.notFound, db)
  | some report =>
    match db.items.find? (fun i => i.id == report.item_id) with
    | none => (.forbidden, db)
    | some item =>
      if item.user_id ≠ uid then (.forbidden, db)
      else
        (.success "Report marked as resolved.",
         { db with finder_reports := db.finder_reports.map fun r =>
             if r.id == report.id then { r with status := "resolved" } else r })

/-- Handler `POST /item/:id/status` (server.js lines 917–928): load the item by id;
a missing item and a caller who is not the owner take the same error
branch; an `item_status` outside `["active", "lost", "recovered"]` is
rejected; otherwise the status is overwritten unconditionally. -/
def setStatus (db : DB) (itemId : Nat) (item_status : String) (uid : Nat) : Outcome × DB :=
  let allowed : List String := ["active", "lost", "recovered"]
  match db.items.find? (fun i => i.id == itemId) with
  | none => (.errorFlash "Item not found.", db)
  | some item =>
    if item.user_id ≠ uid then (.errorFlash "Item not found.", db)
    else if item_status ∉ allowed then (.errorFlash "Invalid status.", db)
    else
      (.success ("Item marked as " ++ item_status ++ "."),
       { db with items := db.items.map fun i =>
           if i.id == item.id then { i with item_status := item_status } else i })

/-! Sample rows used by the concrete witnesses. -/

/-- A registered active item owned by user 7. -/
def itemA : Item := ⟨10, 7, "Laptop", none, "Electronics", "active", none, "tokA", "qrA"⟩

/-- An item owned by user 7 whose status is `lost`. -/
def itemLost : Item := ⟨11, 7, "Phone", none, "Electronics", "lost", none, "tokB", "qrB"⟩

/-- An open finder report against `itemA`. -/
def reportA : FinderReport := ⟨1, 10, "Bo", "bo@x.com", none, "saw it", "open"⟩

/-- An unclaimed found post. -/
def postA : FoundPost := ⟨1, "Ana", "ana@x.com", "Wallet", none, "Other", none, none, "unclaimed"⟩

/-- A found post that is already claimed. -/
def postClaimed : FoundPost := ⟨2, "Ana", "ana@x.com", "Bottle", none, "Other", none, none, "claimed"⟩

/-- A small database holding the sample rows. -/
def dbA : DB := ⟨[itemA, itemLost], [reportA], [postA]⟩

/-- A database whose only found post is already claimed. -/
def dbClaimed : DB := ⟨[], [], [postClaimed]⟩

/-! Helper lemmas about the email validator. -/

/-- A string accepted by `isValidEmail` contains an `@`. -/
theorem at_mem_of_isValidEmail (e : String) (h : isValidEmail e = true) : '@' ∈ e.toList := by
  unfold isValidEmail at h
  simp only [Bool.and_eq_true] at h
  have h1 : e.toList.count '@' = 1 := by simpa using h.1
  by_contra hmem
  rw [List.count_eq_zero.mpr hmem] at h1
  exact absurd h1 (by norm_num)

/-- A string accepted by `isValidEmail` contains a `.` (the mandatory dot of
the domain segment). -/
theorem dot_mem_of_isValidEmail (e : String) (h : isValidEmail e = true) : '.' ∈ e.toList := by
  unfold isValidEmail at h
  simp only [Bool.and_eq_true] at h
  have h5 := h.2.2
  have hsub : List.Sublist
      ((((e.toList.dropWhile fun c => !(c == '@')).drop 1).drop 1).dropLast) e.toList :=
    (List.dropLast_sublist _).trans ((List.drop_sublist _ _).trans
      ((List.drop_sublist _ _).trans (List.dropWhile_sublist _)))
  have hd : '.' ∈ (((e.toList.dropWhile fun c => !(c == '@')).drop 1).drop 1).dropLast := by
    simpa using h5
  exact hsub.mem hd

/-- The validator `isValidEmail` rejects every string without an `@`. -/
theorem isValidEmail_no_at (e : String) (h : '@' ∉ e.toList) : isValidEmail e = false := by
  cases hv : isValidEmail e with
  | false => rfl
  | true => exact absurd (at_mem_of_isValidEmail e hv) h

/-- The validator `isValidEmail` rejects every string without a `.`, hence every string
without a domain segment after the `@`. -/
theorem isValidEmail_no_dot (e : String) (h : '.' ∉ e.toList) : isValidEmail e = false := by
  cases hv : isValidEmail e with
  | false => rfl
  | true => exact absurd (dot_mem_of_isValidEmail e hv) h

/-! Claim C8 — exact token resolution. -/

/-- C8: a token bound to no item resolves to `NotFound` — both on the
`GET /found/:token` page and inside `POST /found/:token`, which then
creates no report; token comparison is exact-match over the full token
(the resolved item's `token` column equals the requested token verbatim),
so two distinct tokens can never resolve to the same item. -/
theorem resolveToken_exact_match (db : DB) (t t1 t2 : String) :
    ((∀ i ∈ db.items, i.token ≠ t) →
       resolveToken db.items t = none ∧ resolveTokenGet db t = .notFound ∧
       ∀ name email loc msg newId,
         submitFinderReport db t name email loc msg newId = (.notFound, db)) ∧
    (∀ i, resolveToken db.items t = some i → i.token = t) ∧
    (∀ i1 i2, resolveToken db.items t1 = some i1 → resolveToken db.items t2 = some i2 →
       i1 = i2 → t1 = t2) := by
  have hexact : ∀ (s : String) (i : Item), resolveToken db.items s = some i → i.token = s := by
    intro s i hi
    unfold resolveToken at hi
    have hb := List.find?_some hi
    exact eq_of_beq hb
  refine ⟨?_, hexact t, ?_⟩
  · intro h
    have hnone : resolveToken db.items t = none := by
      unfold resolveToken
      rw [List.find?_eq_none]
      intro i hi
      simp [h i hi]
    refine ⟨hnone, ?_, ?_⟩
    · simp [resolveTokenGet, hnone]
    · intro name email loc msg newId
      simp [submitFinderReport, hnone]
  · intro i1 i2 h1 h2 h12
    rw [← hexact t1 i1 h1, ← hexact t2 i2 h2, h12]

/-- Concrete instance of C8: the unbound token `zzz` yields the 404 page, the
report submission against it fails with the 404 page and creates nothing,
and the bound token `tokA` resolves to the item whose `token` field is
exactly `tokA`. -/
theorem resolveToken_exact_match_witness :
    resolveTokenGet dbA "zzz" = .notFound ∧
    submitFinderReport dbA "zzz" "Bo" "bo@x.com" "" "saw it" 2 = (.notFound, dbA) ∧
    itemA.token = "tokA" := by
  have h := (resolveToken_exact_match dbA "zzz" "" "").1 (by decide)
  exact ⟨h.2.1, h.2.2 "Bo" "bo@x.com" "" "saw it" 2,
    (resolveToken_exact_match dbA "tokA" "" "").2.1 itemA (by decide)⟩

/-! Claim C4 — `POST /found/:token` (finder report submission). -/

/-- C4: `submitFinderReport` fails with the 404 outcome and creates no report
when the token is bound to no item; with a bound token it rejects a
trimmed name shorter than 2 characters, an email failing `isValidEmail`
(in particular — conjuncts two and three — every string without an `@`
and every string without the domain dot fail the check), and a trimmed
message shorter than 3 characters, leaving the database unchanged in each
case; when all inputs pass, exactly one finder report is appended, with
status `open` and `item_id` equal to the resolved item's id. -/
theorem submitFinderReport_spec (db : DB) (tok name email loc msg : String) (newId : Nat) :
    ((∀ i ∈ db.items, i.token ≠ tok) →
       submitFinderReport db tok name email loc msg newId = (.notFound, db)) ∧
    (∀ e : String, '@' ∉ e.toList → isValidEmail e = false) ∧
    (∀ e : String, '.' ∉ e.toList → isValidEmail e = false) ∧
    (∀ item, resolveToken db.items tok = some item →
       ((sanitize name).length < 2 →
          submitFinderReport db tok name email loc msg newId = (.errorFlash "Name is too short.", db)) ∧
       (2 ≤ (sanitize name).length → isValidEmail (sanitize email) = false →
          submitFinderReport db tok name email loc msg newId = (.errorFlash "Invalid email.", db)) ∧
       (2 ≤ (sanitize name).length → isValidEmail (sanitize email) = true → (sanitize msg).length < 3 →
          submitFinderReport db tok name email loc msg newId = (.errorFlash "Message is too short.", db)) ∧
       (2 ≤ (sanitize name).length → isValidEmail (sanitize email) = true → 3 ≤ (sanitize msg).length →
          ∃ r, (submitFinderReport db tok name email loc msg newId).2.finder_reports
                = db.finder_reports ++ [r] ∧
            r.status = "open" ∧ r.item_id = item.id ∧
            (submitFinderReport db tok name email loc msg newId).1 = .success "Report submitted to owner!")) := by
  refine ⟨?_, isValidEmail_no_at, isValidEmail_no_dot, ?_⟩
  · intro h
    have hnone : resolveToken db.items tok = none := by
      unfold resolveToken
      rw [List.find?_eq_none]
      intro i hi
      simp [h i hi]
    simp [submitFinderReport, hnone]
  · intro item hitem
    refine ⟨?_, ?_, ?_, ?_⟩
    · intro h1
      simp [submitFinderReport, hitem, h1]
    · intro h1 h2
      simp [submitFinderReport, hitem, Nat.not_lt.mpr h1, h2]
    · intro h1 h2 h3
      simp [submitFinderReport, hitem, Nat.not_lt.mpr h1, h2, h3]
    · intro h1 h2 h3
      refine ⟨{ id := newId, item_id := item.id, finder_name := sanitize name,
                finder_email := sanitize email,
                location_hint := if sanitize loc = "" then none else some (sanitize loc),
                message := sanitize msg, status := "open" }, ?_, rfl, rfl, ?_⟩ <;>
        simp [submitFinderReport, hitem, Nat.not_lt.mpr h1, h2, Nat.not_lt.mpr h3]

/-- Concrete instance of C4: against the bound token `tokA` the scenario
report (name `Bo`, email `bo@x.com`, message `saw it`) succeeds and is
stored with status `open` against item 10; the at-sign-free string
`not-an-email` is rejected and creates nothing; an unbound token yields
the 404 outcome. -/
theorem submitFinderReport_spec_witness :
    (submitFinderReport dbA "tokA" "Bo" "bo@x.com" "" "saw it" 2).1
        = .success "Report submitted to owner!" ∧
    ((submitFinderReport dbA "tokA" "Bo" "bo@x.com" "" "saw it" 2).2.finder_reports.map
        (fun r => (r.status, r.item_id))) = [("open", 10), ("open", 10)] ∧
    isValidEmail "not-an-email" = false ∧
    submitFinderReport dbA "tokA" "Bo" "not-an-email" "" "saw it" 2
        = (.errorFlash "Invalid email.", dbA) ∧
    submitFinderReport dbA "zzz" "Bo" "bo@x.com" "" "saw it" 2 = (.notFound, dbA) := by
  have hs := (submitFinderReport_spec dbA "tokA" "Bo" "bo@x.com" "" "saw it" 2).2.2.2 itemA (by decide)
  obtain ⟨r, hl, hst, hid, hout⟩ := hs.2.2.2 (by decide) (by decide) (by decide)
  refine ⟨hout, ?_, ?_, ?_, ?_⟩
  · rw [hl]
    simp [dbA, reportA, hst, hid, itemA]
  · exact (submitFinderReport_spec dbA "" "" "" "" "" 0).2.1 "not-an-email" (by decide)
  · exact ((submitFinderReport_spec dbA "tokA" "Bo" "not-an-email" "" "saw it" 2).2.2.2 itemA
      (by decide)).2.1 (by decide) (by decide)
  · exact (submitFinderReport_spec dbA "zzz" "Bo" "bo@x.com" "" "saw it" 2).1 (by decide)

/-! Claim C5 — `POST /lost/:id/sighting`. -/

/-- C5: `submitSighting` creates a report only when the target item exists
with status `lost` (the lookup itself filters on `item_status = "lost"`;
otherwise the not-found outcome is returned and the database is
unchanged); it applies the same name/email/message validation rules as
`submitFinderReport` (the shared `sanitize` length checks and
`isValidEmail`), and on success appends one finder report with status
`open` whose message carries the `[Sighting] ` tag. -/
theorem submitSighting_spec (db : DB) (itemId : Nat) (name email loc msg : String) (newId : Nat) :
    ((∀ i ∈ db.items, ¬(i.id = itemId ∧ i.item_status = "lost")) →
       submitSighting db itemId name email loc msg newId = (.errorFlash "Item not found.", db)) ∧
    (∀ item, db.items.find? (fun i => i.id == itemId && i.item_status == "lost") = some item →
       item.item_status = "lost" ∧
       ((sanitize name).length < 2 →
          submitSighting db itemId name email loc msg newId = (.errorFlash "Name is too short.", db)) ∧
       (2 ≤ (sanitize name).length → isValidEmail (sanitize email) = false →
          submitSighting db itemId name email loc msg newId = (.errorFlash "Invalid email.", db)) ∧
       (2 ≤ (sanitize name).length → isValidEmail (sanitize email) = true → (sanitize msg).length < 3 →
          submitSighting db itemId name email loc msg newId = (.errorFlash "Message is too short.", db)) ∧
       (2 ≤ (sanitize name).length → isValidEmail (sanitize email) = true → 3 ≤ (sanitize msg).length →
          ∃ r, (submitSighting db itemId name email loc msg newId).2.finder_reports
                = db.finder_reports ++ [r] ∧
            r.status = "open" ∧ r.item_id = item.id ∧
            r.message = "[Sighting] " ++ sanitize msg ∧
            (submitSighting db itemId name email loc msg newId).1
              = .success ("Sighting reported for \"" ++ item.item_name ++ "\". The owner has been notified!"))) := by
  constructor
  · intro h
    have hnone : db.items.find? (fun i => i.id == itemId && i.item_status == "lost") = none := by
      rw [List.find?_eq_none]
      intro i hi
      have := h i hi
      simp only [Bool.and_eq_true, beq_iff_eq, not_and]
      intro h1
      intro h2
      exact this ⟨h1, h2⟩
    simp [submitSighting, hnone]
  · intro item hitem
    have hlost : item.item_status = "lost" := by
      have := List.find?_some hitem
      rw [Bool.and_eq_true] at this
      exact eq_of_beq this.2
    refine ⟨hlost, ?_, ?_, ?_, ?_⟩
    · intro h1
      simp [submitSighting, hitem, h1]
    · intro h1 h2
      simp [submitSighting, hitem, Nat.not_lt.mpr h1, h2]
    · intro h1 h2 h3
      simp [submitSighting, hitem, Nat.not_lt.mpr h1, h2, h3]
    · intro h1 h2 h3
      refine ⟨{ id := newId, item_id := item.id, finder_name := sanitize name,
                finder_email := sanitize email,
                location_hint := if sanitize loc = "" then none else some (sanitize loc),
                message := "[Sighting] " ++ sanitize msg, status := "open" }, ?_, rfl, rfl, rfl, ?_⟩ <;>
        simp [submitSighting, hitem, Nat.not_lt.mpr h1, h2, Nat.not_lt.mpr h3]

/-- Concrete instance of C5: a sighting against the lost item 11 succeeds and
the stored message carries the `[Sighting] ` tag; the same sighting
against item 10 (whose status is `active`, not `lost`) returns the
not-found outcome and creates nothing. -/
theorem submitSighting_spec_witness :
    (submitSighting dbA 11 "Ana" "ana@x.com" "" "It is at the gym" 3).1
        = .success ("Sighting reported for \"" ++ "Phone" ++ "\". The owner has been notified!") ∧
    ((submitSighting dbA 11 "Ana" "ana@x.com" "" "It is at the gym" 3).2.finder_reports.map
        FinderReport.message) = ["saw it", "[Sighting] It is at the gym"] ∧
    submitSighting dbA 10 "Ana" "ana@x.com" "" "It is at the gym" 3
        = (.errorFlash "Item not found.", dbA) := by
  have hs := (submitSighting_spec dbA 11 "Ana" "ana@x.com" "" "It is at the gym" 3).2 itemLost (by decide)
  obtain ⟨r, hl, hst, hid, hmsg, hout⟩ := hs.2.2.2.2 (by decide) (by decide) (by decide)
  refine ⟨?_, ?_, ?_⟩
  · exact hout
  · rw [hl]
    simp [dbA, reportA, hmsg]
    rfl
  · exact (submitSighting_spec dbA 10 "Ana" "ana@x.com" "" "It is at the gym" 3).1 (by decide)

/-! Claim C1 — `POST /report/:id/resolve`. -/

/-- C1: `resolveReport` returns the 404 outcome and changes nothing when no
report carries the requested id; when the report exists, the parent item
is looked up and the call fails with the 403 outcome — the database
untouched, so the report's status in particular is unchanged — unless the
caller is the parent item's owner (a dangling parent also yields 403);
only the owner's call sets the report's status to `resolved`, touching no
other table and no other report. -/
theorem resolveReport_spec (db : DB) (rid uid : Nat) :
    ((∀ r ∈ db.finder_reports, r.id ≠ rid) → resolveReport db rid uid = (.notFound, db)) ∧
    (∀ report, db.finder_reports.find? (fun r => r.id == rid) = some report →
       (db.items.find? (fun i => i.id == report.item_id) = none →
          resolveReport db rid uid = (.forbidden, db)) ∧
       (∀ item, db.items.find? (fun i => i.id == report.item_id) = some item →
          (item.user_id ≠ uid → resolveReport db rid uid = (.forbidden, db)) ∧
          (item.user_id = uid →
             (resolveReport db rid uid).1 = .success "Report marked as resolved." ∧
             (∀ r' ∈ (resolveReport db rid uid).2.finder_reports,
                r'.id = rid → r'.status = "resolved") ∧
             (∀ r' ∈ (resolveReport db rid uid).2.finder_reports,
                r'.id ≠ rid → r' ∈ db.finder_reports) ∧
             (resolveReport db rid uid).2.items = db.items ∧
             (resolveReport db rid uid).2.found_posts = db.found_posts))) := by
  constructor
  · intro h
    have hnone : db.finder_reports.find? (fun r => r.id == rid) = none := by
      rw [List.find?_eq_none]
      intro r hr
      simp [h r hr]
    simp [resolveReport, hnone]
  · intro report hrep
    have hrid : report.id = rid := by
      have hb := List.find?_some hrep
      exact eq_of_beq hb
    constructor
    · intro hitem
      simp [resolveReport, hrep, hitem]
    · intro item hitem
      constructor
      · intro hne
        simp [resolveReport, hrep, hitem, hne]
      · intro heq
        have hresult : resolveReport db rid uid =
            (.success "Report marked as resolved.",
             { db with finder_reports := db.finder_reports.map fun r =>
                 if r.id == report.id then { r with status := "resolved" } else r }) := by
          simp [resolveReport, hrep, hitem, heq]
        rw [hresult]
        refine ⟨rfl, ?_, ?_, rfl, rfl⟩
        · intro r' hr' hid
          rcases List.mem_map.mp hr' with ⟨x, hx, rfl⟩
          by_cases hxb : (x.id == report.id) = true
          · simp [hxb]
          · exfalso
            rw [if_neg hxb] at hid
            exact hxb (by simp [hid, hrid])
        · intro r' hr' hid
          rcases List.mem_map.mp hr' with ⟨x, hx, rfl⟩
          by_cases hxb : (x.id == report.id) = true
          · exfalso
            rw [if_pos hxb] at hid
            exact hid (by simpa [hrid] using eq_of_beq hxb)
          · rw [if_neg hxb]
            exact hx

/-- Concrete instance of C1: on the sample database the non-owner (user 8)
gets a 403 and the database — the report's `open` status included — is
untouched; the owner (user 7) gets the success outcome and the stored
report's status becomes `resolved`; a nonexistent report id yields the
404 outcome. -/
theorem resolveReport_spec_witness :
    resolveReport dbA 1 8 = (.forbidden, dbA) ∧
    (resolveReport dbA 1 7).1 = .success "Report marked as resolved." ∧
    ((resolveReport dbA 1 7).2.finder_reports.map FinderReport.status) = ["resolved"] ∧
    resolveReport dbA 99 7 = (.notFound, dbA) := by
  have howner := (((resolveReport_spec dbA 1 7).2 reportA (by decide)).2 itemA (by decide)).2 rfl
  refine ⟨?_, howner.1, ?_, ?_⟩
  · exact (((resolveReport_spec dbA 1 8).2 reportA (by decide)).2 itemA (by decide)).1 (by decide)
  · have hmem := howner.2.1
    have hlen : (resolveReport dbA 1 7).2.finder_reports =
        (dbA.finder_reports.map fun r => if r.id == 1 then { r with status := "resolved" } else r) := by
      simp [resolveReport, dbA, reportA, itemA]
    rw [hlen]
    decide
  · exact (resolveReport_spec dbA 99 7).1 (by decide)

/-! Claim C2 — `POST /item/:id/status`. -/

/-- C2: `setStatus` fails — an error-flash redirect, the code's surface for
the authorization failure, sharing its branch with the missing-item case —
whenever the caller is not the item's owner, leaving the database
unchanged; an owner submitting a status outside
`["active", "lost", "recovered"]` gets the `Invalid status.` validation
error with the item's status unchanged; an owner submitting a status in
the enum overwrites the item's status unconditionally — no hypothesis
about the previous status is needed, so any enum value is reachable from
any other. -/
theorem setStatus_spec (db : DB) (itemId : Nat) (st : String) (uid : Nat) :
    ((∀ i ∈ db.items, i.id ≠ itemId) → setStatus db itemId st uid = (.errorFlash "Item not found.", db)) ∧
    (∀ item, db.items.find? (fun i => i.id == itemId) = some item →
       (item.user_id ≠ uid → setStatus db itemId st uid = (.errorFlash "Item not found.", db)) ∧
       (item.user_id = uid →
          (st ∉ ["active", "lost", "recovered"] →
             setStatus db itemId st uid = (.errorFlash "Invalid status.", db)) ∧
          (st ∈ ["active", "lost", "recovered"] →
             (setStatus db itemId st uid).1 = .success ("Item marked as " ++ st ++ ".") ∧
             (∀ i' ∈ (setStatus db itemId st uid).2.items,
                (i'.id = itemId → i'.item_status = st) ∧ (i'.id ≠ itemId → i' ∈ db.items)) ∧
             (setStatus db itemId st uid).2.finder_reports = db.finder_reports ∧
             (setStatus db itemId st uid).2.found_posts = db.found_posts))) := by
  constructor
  · intro h
    have hnone : db.items.find? (fun i => i.id == itemId) = none := by
      rw [List.find?_eq_none]
      intro i hi
      simp [h i hi]
    simp [setStatus, hnone]
  · intro item hitem
    have hid : item.id = itemId := by
      have hb := List.find?_some hitem
      exact eq_of_beq hb
    constructor
    · intro hne
      simp [setStatus, hitem, hne]
    · intro heq
      constructor
      · intro hst
        simp [setStatus, hitem, heq, hst]
      · intro hst
        have hresult : setStatus db itemId st uid =
            (.success ("Item marked as " ++ st ++ "."),
             { db with items := db.items.map fun i =>
                 if i.id == item.id then { i with item_status := st } else i }) := by
          simp [setStatus, hitem, heq, hst]
        rw [hresult]
        refine ⟨rfl, ?_, rfl, rfl⟩
        intro i' hi'
        rcases List.mem_map.mp hi' with ⟨x, hx, rfl⟩
        by_cases hxb : (x.id == item.id) = true
        · constructor
          · intro _
            simp [hxb]
          · intro hne
            exfalso
            rw [if_pos hxb] at hne
            exact hne (by simpa [hid] using eq_of_beq hxb)
        · constructor
          · intro hxe
            exfalso
            rw [if_neg hxb] at hxe
            exact hxb (by simp [hxe, hid])
          · intro _
            rw [if_neg hxb]
            exact hx

/-- Concrete instance of C2: on the sample database the non-owner (user 8)
cannot change item 10's status and the database is unchanged; the owner
submitting `banana` gets the validation error with the status unchanged;
the owner submitting `lost` succeeds and item 10's stored status becomes
`lost` — directly overwriting the previous value. -/
theorem setStatus_spec_witness :
    setStatus dbA 10 "lost" 8 = (.errorFlash "Item not found.", dbA) ∧
    setStatus dbA 10 "banana" 7 = (.errorFlash "Invalid status.", dbA) ∧
    (setStatus dbA 10 "lost" 7).1 = .success ("Item marked as " ++ "lost" ++ ".") := by
  refine ⟨?_, ?_, ?_⟩
  · exact ((setStatus_spec dbA 10 "lost" 8).2 itemA (by decide)).1 (by decide)
  · exact (((setStatus_spec dbA 10 "banana" 7).2 itemA (by decide)).2 rfl).1 (by decide)
  · exact ((((setStatus_spec dbA 10 "lost" 7).2 itemA (by decide)).2 rfl).2 (by decide)).1

/-! Claim C6 — `POST /found-items/:id/claim`. -/

/-- C6: a sequential `claimFoundPost` call fails with the single
not-found-or-already-claimed error outcome — and changes nothing — when
the post is missing or its status is not `unclaimed` (so claiming an
already claimed post is a no-op error, never a double transition); when
an unclaimed post with the id exists the call succeeds (for an arbitrary
authenticated caller `uid`, unrelated to the post) and that post's status
becomes `claimed`.  The transition is one-directional across the
operations touching `found_posts`: after a claim every post is either
untouched or `claimed` (conjunct three), and `postFoundItem` preserves
every existing post verbatim (conjunct four) — no operation returns a
post to `unclaimed`. -/
theorem claimFoundPost_spec (db : DB) (postId uid : Nat) :
    ((∀ p ∈ db.found_posts, ¬(p.id = postId ∧ p.status = "unclaimed")) →
       claimFoundPost db postId uid = (.errorFlash "Post not found or already claimed.", db)) ∧
    (∀ post, claimRead db postId = some post →
       (claimFoundPost db postId uid).1 = .success (claimMsg post) ∧
       (∀ q ∈ (claimFoundPost db postId uid).2.found_posts, q.id = postId → q.status = "claimed")) ∧
    (∀ q ∈ (claimFoundPost db postId uid).2.found_posts, q ∈ db.found_posts ∨ q.status = "claimed") ∧
    (∀ fname femail iname desc cat loc file n, ∀ q ∈ db.found_posts,
       q ∈ (postFoundItem db fname femail iname desc cat loc file n).2.found_posts) := by
  refine ⟨?_, ?_, ?_, ?_⟩
  · intro h
    have hnone : claimRead db postId = none := by
      unfold claimRead
      rw [List.find?_eq_none]
      intro p hp
      have := h p hp
      simp only [Bool.and_eq_true, beq_iff_eq, not_and]
      intro h1 h2
      exact this ⟨h1, h2⟩
    simp [claimFoundPost, hnone]
  · intro post hpost
    have hpid : post.id = postId := by
      have hb := List.find?_some hpost
      rw [Bool.and_eq_true] at hb
      exact eq_of_beq hb.1
    have hresult : claimFoundPost db postId uid = (.success (claimMsg post), claimWrite db post.id) := by
      simp [claimFoundPost, hpost]
    rw [hresult]
    refine ⟨rfl, ?_⟩
    intro q hq hqid
    rcases List.mem_map.mp hq with ⟨x, hx, rfl⟩
    by_cases hxb : (x.id == post.id) = true
    · simp [hxb]
    · exfalso
      rw [if_neg hxb] at hqid
      exact hxb (by simp [hqid, hpid])
  · intro q hq
    rcases hread : claimRead db postId with _ | post
    · left
      have : (claimFoundPost db postId uid).2 = db := by
        simp [claimFoundPost, hread]
      rwa [this] at hq
    · have : (claimFoundPost db postId uid).2 = claimWrite db post.id := by
        simp [claimFoundPost, hread]
      rw [this] at hq
      rcases List.mem_map.mp hq with ⟨x, hx, rfl⟩
      by_cases hxb : (x.id == post.id) = true
      · right
        simp [hxb]
      · left
        rw [if_neg hxb]
        exact hx
  · intro fname femail iname desc cat loc file n q hq
    by_cases hn : (sanitize fname).length < 2
    · simpa [postFoundItem, hn] using hq
    · by_cases he : isValidEmail (sanitize femail) = false
      · simpa [postFoundItem, hn, he] using hq
      · by_cases hi : sanitize iname = "" ∨ (sanitize iname).length > 150
        · simpa [postFoundItem, hn, he, hi] using hq
        · simp [postFoundItem, hn, he, hi, List.mem_append]
          exact Or.inl hq

/-- Concrete instance of C6: user 7 (who has no relation to the post) claims
the sample unclaimed post and its stored status becomes `claimed`; the
same call against a database whose only post is already claimed fails
with the no-op error and the state is unchanged. -/
theorem claimFoundPost_spec_witness :
    (claimFoundPost dbA 1 7).1 = .success (claimMsg postA) ∧
    ((claimFoundPost dbA 1 7).2.found_posts.map FoundPost.status) = ["claimed"] ∧
    claimFoundPost dbClaimed 2 7 = (.errorFlash "Post not found or already claimed.", dbClaimed) := by
  have hs := (claimFoundPost_spec dbA 1 7).2.1 postA (by decide)
  refine ⟨hs.1, ?_, (claimFoundPost_spec dbClaimed 2 7).1 (by decide)⟩
  have : (claimFoundPost dbA 1 7).2 = claimWrite dbA 1 := by
    simp [claimFoundPost, claimRead, dbA, postA]
  rw [this]
  decide

/-! Claim C7 — `POST /dashboard` (item registration, current version). -/

/-- C7: `registerItem` rejects a trimmed name that is missing (empty) or
longer than 150 characters with the validation error flash, creating no
item; with a valid name it appends exactly one item whose status is
`active` and reports success, and a storage failure of the external image
upload is non-fatal: the item is still created, with its image reference
left null. -/
theorem registerItem_spec (db : DB) (userId : Nat) (name desc cat : String)
    (file : Option UploadResult) (bytes : List (Fin 256)) (qr : String) (newId : Nat) :
    ((sanitize name = "" ∨ (sanitize name).length > 150) →
       registerItem db userId name desc cat file bytes qr newId
         = (.errorFlash "Item name is required (max 150 characters).", db)) ∧
    (sanitize name ≠ "" → (sanitize name).length ≤ 150 →
       ∃ it, (registerItem db userId name desc cat file bytes qr newId).2.items
               = db.items ++ [it] ∧
         it.item_status = "active" ∧
         (registerItem db userId name desc cat file bytes qr newId).1
           = .success "Item registered and QR generated." ∧
         (file = some .storageError → it.image_url = none) ∧
         (registerItem db userId name desc cat file bytes qr newId).2.finder_reports
           = db.finder_reports ∧
         (registerItem db userId name desc cat file bytes qr newId).2.found_posts
           = db.found_posts) := by
  constructor
  · intro h
    simp [registerItem, h]
  · intro h1 h2
    have hcond : ¬(sanitize name = "" ∨ (sanitize name).length > 150) := by
      push_neg
      exact ⟨h1, Nat.not_lt.mp (by simpa using Nat.not_lt.mpr h2)⟩
    refine ⟨{ id := newId, user_id := userId, item_name := sanitize name,
              item_description := if sanitize desc = "" then none else some (sanitize desc),
              category := if CATEGORIES.contains (if cat = "" then "Other" else cat)
                then (if cat = "" then "Other" else cat) else "Other",
              item_status := "active",
              image_url := match file with
                | none => none
                | some r => uploadImage r,
              token := generateToken bytes, qr_data_url := qr }, ?_, rfl, ?_, ?_, ?_, ?_⟩
    · simp [registerItem, hcond]
    · simp [registerItem, hcond]
    · intro hf
      rw [hf]
      rfl
    · simp [registerItem, hcond]
    · simp [registerItem, hcond]

/-- Concrete instance of C7: registering `Laptop` with a failing image
upload still succeeds — the stored row has status `active` and a null
image reference; a whitespace-only (hence missing) name is rejected with
the validation error and creates nothing. -/
theorem registerItem_spec_witness :
    (registerItem dbA 7 "Laptop" "" "Electronics" (some .storageError) [] "qr" 12).1
        = .success "Item registered and QR generated." ∧
    ((registerItem dbA 7 "Laptop" "" "Electronics" (some .storageError) [] "qr" 12).2.items.map
        (fun i => (i.item_status, i.image_url)))
      = [("active", none), ("lost", none), ("active", none)] ∧
    registerItem dbA 7 "  " "" "Electronics" none [] "qr" 12
        = (.errorFlash "Item name is required (max 150 characters).", dbA) := by
  obtain ⟨it, hl, hs, ho, hi, -, -⟩ :=
    (registerItem_spec dbA 7 "Laptop" "" "Electronics" (some .storageError) [] "qr" 12).2
      (by decide) (by decide)
  refine ⟨ho, ?_, (registerItem_spec dbA 7 "  " "" "Electronics" none [] "qr" 12).1 (by decide)⟩
  rw [hl]
  simp [dbA, itemA, itemLost, hs, hi rfl]

/-! Claim C10 — silent category coercion. -/

/-- C10: when the submitted category is none of the nine `CATEGORIES`, both
`registerItem` (`POST /dashboard`) and `postFoundItem`
(`POST /found-items`) still create the record — the request is not
rejected — and the stored category is silently coerced to `Other`
(`CATEGORIES.includes(category) ? category : "Other"`). -/
theorem category_coerced_to_Other (db : DB) (userId : Nat)
    (name desc cat loc fname femail : String) (file : Option UploadResult)
    (bytes : List (Fin 256)) (qr : String) (n1 n2 : Nat)
    (hcat : cat ∉ CATEGORIES) (hc0 : cat ≠ "")
    (hn1 : sanitize name ≠ "") (hn2 : (sanitize name).length ≤ 150)
    (hf : 2 ≤ (sanitize fname).length) (he : isValidEmail (sanitize femail) = true) :
    (∃ it, (registerItem db userId name desc cat file bytes qr n1).2.items = db.items ++ [it] ∧
       it.category = "Other" ∧
       (registerItem db userId name desc cat file bytes qr n1).1.isSuccess = true) ∧
    (∃ p, (postFoundItem db fname femail name desc cat loc file n2).2.found_posts
            = db.found_posts ++ [p] ∧
       p.category = "Other" ∧
       (postFoundItem db fname femail name desc cat loc file n2).1.isSuccess = true) := by
  have hcontains : CATEGORIES.contains cat = false := by simp [hcat]
  have hcond : ¬(sanitize name = "" ∨ (sanitize name).length > 150) := by
    push_neg
    exact ⟨hn1, Nat.not_lt.mp (by simpa using Nat.not_lt.mpr hn2)⟩
  constructor
  · refine ⟨{ id := n1, user_id := userId, item_name := sanitize name,
              item_description := if sanitize desc = "" then none else some (sanitize desc),
              category := "Other", item_status := "active",
              image_url := match file with
                | none => none
                | some r => uploadImage r,
              token := generateToken bytes, qr_data_url := qr }, ?_, rfl, ?_⟩
    · simp [registerItem, hcond, hc0, hcat]
    · simp [registerItem, hcond, Outcome.isSuccess]
  · have hn' : ¬((sanitize fname).length < 2) := Nat.not_lt.mpr hf
    have he' : ¬(isValidEmail (sanitize femail) = false) := by simp [he]
    refine ⟨{ id := n2, finder_name := sanitize fname, finder_email := sanitize femail,
              item_name := sanitize name,
              item_description := if sanitize desc = "" then none else some (sanitize desc),
              category := "Other",
              location_found := if sanitize loc = "" then none else some (sanitize loc),
              image_url := match file with
                | none => none
                | some r => uploadImage r,
              status := "unclaimed" }, ?_, rfl, ?_⟩
    · simp [postFoundItem, hn', he', hcond, hc0, hcat]
    · simp [postFoundItem, hn', he', hcond, Outcome.isSuccess]

/-- Concrete instance of C10: submitting the category `banana` — not one of
the nine — to both endpoints still creates the row, with stored category
`Other`. -/
theorem category_coerced_to_Other_witness :
    ((registerItem dbA 7 "Laptop" "" "banana" none [] "qr" 13).2.items.map Item.category)
        = ["Electronics", "Electronics", "Other"] ∧
    ((postFoundItem dbA "Ana" "ana@x.com" "Laptop" "" "banana" "" none 5).2.found_posts.map
        FoundPost.category) = ["Other", "Other"] := by
  obtain ⟨⟨it, hl1, hc1, -⟩, ⟨p, hl2, hc2, -⟩⟩ :=
    category_coerced_to_Other dbA 7 "Laptop" "" "banana" "" "Ana" "ana@x.com" none [] "qr" 13 5
      (by decide) (by decide) (by decide) (by decide) (by decide) (by decide)
  constructor
  · rw [hl1]
    simp [dbA, itemA, itemLost, hc1]
  · rw [hl2]
    simp [dbA, postA, hc2]

/-! Claim C9 — at-most-one claim / at-most-one resolve. -/

/-- C9 counterexample: the claim asserts that of two concurrent
`claimFoundPost` calls on the same unclaimed post exactly one succeeds
and the other observes a conflict, and that at most one `resolveReport`
succeeds on the same open report.  Both parts fail on the code at this
concrete input: the handler's select and update are separate,
untransacted store operations and the update is not conditioned on the
status, so under the interleaving in which both selects run before either
update (`claimTwoInterleaved`) both callers of post 1 of `dbA` receive
the success outcome and neither observes a conflict; and `resolveReport`
never inspects the report's status, so the owner's second, sequential
resolve of report 1 reports success again rather than failing. -/
theorem at_most_one_claim_counterexample :
    (claimTwoInterleaved dbA 1).1.isSuccess = true ∧
    (claimTwoInterleaved dbA 1).2.1.isSuccess = true ∧
    (resolveReport dbA 1 7).1.isSuccess = true ∧
    (resolveReport (resolveReport dbA 1 7).2 1 7).1.isSuccess = true := by
  decide

/-- C9 amended: under sequential execution at-most-one-claim does hold — a
second `claimFoundPost` on the same post after a successful first claim
observes the conflict error and changes nothing (the first claim holds
regardless of either caller's identity); under the read-read-write-write
interleaving, however, both calls report success (see the counterexample),
and repeated sequential `resolveReport` calls by the owner all report
success because the handler never checks the report's status. -/
theorem at_most_one_claim_sequential (db : DB) (postId uidA uidB : Nat) (post : FoundPost)
    (h : claimRead db postId = some post) :
    (claimFoundPost db postId uidA).1 = .success (claimMsg post) ∧
    claimFoundPost (claimFoundPost db postId uidA).2 postId uidB
      = (.errorFlash "Post not found or already claimed.", (claimFoundPost db postId uidA).2) := by
  have hpid : post.id = postId := by
    have hb := List.find?_some h
    rw [Bool.and_eq_true] at hb
    exact eq_of_beq hb.1
  have h2 : (claimFoundPost db postId uidA).2 = claimWrite db post.id := by
    simp [claimFoundPost, h]
  have hnone : claimRead (claimWrite db post.id) postId = none := by
    unfold claimRead claimWrite
    rw [List.find?_eq_none]
    intro x hx
    rcases List.mem_map.mp hx with ⟨y, hy, rfl⟩
    by_cases hyb : (y.id == post.id) = true
    · simp [hyb]
    · rw [if_neg hyb]
      simp only [Bool.and_eq_true, beq_iff_eq, not_and]
      intro hyid
      exact absurd (by simp [hyid, hpid] : (y.id == post.id) = true) hyb
  constructor
  · simp [claimFoundPost, h]
  · rw [h2]
    simp [claimFoundPost, hnone]

/-- Concrete instance of the amended C9: on the sample database user 7's
claim of post 1 succeeds, and user 8's subsequent sequential claim of the
same post observes the conflict error with the state unchanged. -/
theorem at_most_one_claim_sequential_witness :
    (claimFoundPost dbA 1 7).1 = .success (claimMsg postA) ∧
    claimFoundPost (claimFoundPost dbA 1 7).2 1 8
      = (.errorFlash "Post not found or already claimed.", (claimFoundPost dbA 1 7).2) :=
  at_most_one_claim_sequential dbA 1 7 8 postA (by decide)

/-! Claim C3 — recovery-token entropy. -/

set_option maxRecDepth 8192 in
/-- Two hexadecimal characters decode back to the byte they encode. -/
theorem hexDigit_unhex :
    ∀ b : Fin 256, hexPairToByte (hexDigit (b.val / 16)) (hexDigit (b.val % 16)) = b.val := by
  decide

/-- The decoder `hexToBytes` is a left inverse of `bytesToHex`. -/
theorem hexToBytes_bytesToHex : ∀ l : List (Fin 256), hexToBytes (bytesToHex l) = some l := by
  intro l
  induction l with
  | nil => rfl
  | cons b t ih =>
    have hb : hexPairToByte (hexDigit (b.val / 16)) (hexDigit (b.val % 16)) % 256 = b.val := by
      rw [hexDigit_unhex b]
      exact Nat.mod_eq_of_lt b.isLt
    show (hexToBytes (bytesToHex t)).map _ = _
    rw [ih, Option.map_some']
    simp only [Option.some.injEq, List.cons.injEq]
    refine ⟨?_, trivial⟩
    apply Fin.ext
    simpa using hb

/-- The token map `generateToken` is injective: distinct byte strings give distinct tokens,
so the 2 ^ 128 possible outputs of `crypto.randomBytes(16)` yield 2 ^ 128
distinct recovery tokens. -/
theorem generateToken_inj (b1 b2 : List (Fin 256)) (h : generateToken b1 = generateToken b2) :
    b1 = b2 := by
  have hl : bytesToHex b1 = bytesToHex b2 := congrArg String.data h
  have hsome := congrArg hexToBytes hl
  rw [hexToBytes_bytesToHex, hexToBytes_bytesToHex] at hsome
  exact Option.some_inj.mp hsome

/-- Every base-36 digit lies in the base-36 alphabet. -/
theorem base36Digit_mem (n : Nat) :
    base36Digit n ∈ "0123456789abcdefghijklmnopqrstuvwxyz".toList := by
  unfold base36Digit
  rcases Nat.lt_or_ge n 36 with h | h
  · interval_cases n <;> decide
  · have hlen : ("0123456789abcdefghijklmnopqrstuvwxyz".toList).length ≤ n := by
      have h36 : ("0123456789abcdefghijklmnopqrstuvwxyz".toList).length = 36 := by decide
      omega
    rw [List.getD_eq_default _ _ hlen]
    decide

/-- Every character printed by `fracB36Aux` lies in the base-36 alphabet. -/
theorem fracB36Aux_mem :
    ∀ fuel r c, c ∈ fracB36Aux fuel r → c ∈ "0123456789abcdefghijklmnopqrstuvwxyz".toList := by
  intro fuel
  induction fuel with
  | zero =>
    intro r c hc
    simp [fracB36Aux] at hc
  | succ n ih =>
    intro r c hc
    cases r with
    | zero => simp [fracB36Aux] at hc
    | succ m =>
      rw [show fracB36Aux (n + 1) (m + 1)
            = base36Digit ((m + 1) * 36 / 2 ^ 53) :: fracB36Aux n ((m + 1) * 36 % 2 ^ 53)
          from rfl] at hc
      rcases List.mem_cons.mp hc with h | h
      · rw [h]
        exact base36Digit_mem _
      · exact ih _ _ h

/-- Every character printed by `toB36Aux` lies in the base-36 alphabet. -/
theorem toB36Aux_mem :
    ∀ fuel n c, c ∈ toB36Aux fuel n → c ∈ "0123456789abcdefghijklmnopqrstuvwxyz".toList := by
  intro fuel
  induction fuel with
  | zero =>
    intro n c hc
    simp [toB36Aux] at hc
  | succ f ih =>
    intro n c hc
    cases n with
    | zero => simp [toB36Aux] at hc
    | succ m =>
      rw [show toB36Aux (f + 1) (m + 1)
            = toB36Aux f ((m + 1) / 36) ++ [base36Digit ((m + 1) % 36)] from rfl] at hc
      rcases List.mem_append.mp hc with h | h
      · exact ih _ _ h
      · rw [List.mem_singleton.mp h]
        exact base36Digit_mem _

/-- Every character of a `cryptoRandomToken` lies in the 36-character
alphabet `0-9a-z`: the legacy token is a reduced-alphabet identifier. -/
theorem cryptoRandomToken_alphabet (r : Fin (2 ^ 53)) (t : Nat) :
    ∀ c ∈ (cryptoRandomToken r t).toList,
      c ∈ "0123456789abcdefghijklmnopqrstuvwxyz".toList := by
  intro c hc
  have happ : (cryptoRandomToken r t).toList
      = fracB36Aux 64 r.val ++ (natToBase36 t).toList := rfl
  rw [happ] at hc
  rcases List.mem_append.mp hc with h | h
  · exact fracB36Aux_mem _ _ _ h
  · by_cases ht : t = 0
    · subst ht
      simp [natToBase36] at h
      rw [h]
      decide
    · rw [show (natToBase36 t).toList = toB36Aux 64 t from by simp [natToBase36, ht]] at h
      exact toB36Aux_mem _ _ _ h

/-- C3 counterexample: in the repository's legacy `POST /dashboard` handler
the recovery token comes from `cryptoRandomToken`, which is time-derived
and reduced-alphabet, contradicting the claim that every token
`registerItem` generates is a ≥ 128-bit non-time-derived identifier: two
registrations with the *same* randomness input `2 ^ 52` (the double 0.5)
at clock readings 1000 and 1001 store different three-character base-36
tokens `irs` and `irt` — the token is a function of the clock, and its
random part here is the single digit `i`. -/
theorem token_time_derived_counterexample :
    (registerItemLegacy ⟨[], [], []⟩ 7 "Laptop" "" ⟨2 ^ 52, by norm_num⟩ 1000 "qr" 1).2.items.map
        Item.token = ["irs"] ∧
    (registerItemLegacy ⟨[], [], []⟩ 7 "Laptop" "" ⟨2 ^ 52, by norm_num⟩ 1001 "qr" 1).2.items.map
        Item.token = ["irt"] ∧
    cryptoRandomToken ⟨2 ^ 52, by norm_num⟩ 1000 ≠ cryptoRandomToken ⟨2 ^ 52, by norm_num⟩ 1001 := by
  refine ⟨?_, ?_, ?_⟩ <;> decide

/-- C3 amended: the *current* `POST /dashboard` handler's tokens
(`generateToken`, the hex rendering of the 16 bytes drawn from Node's
CSPRNG `crypto.randomBytes`) do carry the full 128 bits — `generateToken`
is injective, so the 2 ^ 128 byte strings give 2 ^ 128 distinct tokens;
but the repository's legacy handler uses `cryptoRandomToken`, whose
output for any fixed clock reading ranges over at most 2 ^ 53 values
(the randomness of one `Math.random` double — far below 2 ^ 128) and
stays inside the reduced 36-character alphabet, and which depends on the
clock (see the counterexample). -/
theorem token_entropy_amended :
    (∀ b1 b2 : List (Fin 256), generateToken b1 = generateToken b2 → b1 = b2) ∧
    (∀ t : Nat, ((Finset.univ : Finset (Fin (2 ^ 53))).image
        (fun r => cryptoRandomToken r t)).card ≤ 2 ^ 53) ∧
    (∀ (r : Fin (2 ^ 53)) (t : Nat), ∀ c ∈ (cryptoRandomToken r t).toList,
       c ∈ "0123456789abcdefghijklmnopqrstuvwxyz".toList) := by
  refine ⟨generateToken_inj, ?_, cryptoRandomToken_alphabet⟩
  intro t
  calc ((Finset.univ : Finset (Fin (2 ^ 53))).image (fun r => cryptoRandomToken r t)).card
      ≤ (Finset.univ : Finset (Fin (2 ^ 53))).card := Finset.card_image_le
    _ = 2 ^ 53 := by rw [Finset.card_univ, Fintype.card_fin]

/-- Concrete instance of the amended C3: injectivity applied at a concrete
byte string, the cardinality bound at clock reading 0, and the alphabet
fact at the token of randomness 0 and clock 0. -/
theorem token_entropy_amended_witness :
    ([(0 : Fin 256), 255] : List (Fin 256)) = [(0 : Fin 256), 255] ∧
    ((Finset.univ : Finset (Fin (2 ^ 53))).image (fun r => cryptoRandomToken r 0)).card ≤ 2 ^ 53 ∧
    '0' ∈ "0123456789abcdefghijklmnopqrstuvwxyz".toList :=
  ⟨token_entropy_amended.1 _ _ rfl,
   token_entropy_amended.2.1 0,
   token_entropy_amended.2.2 ⟨0, by norm_num⟩ 0 '0' (by decide)⟩

end PUTrace
